import Mathlib

/-!
Shallow embedding of `src/image-app.py`, a single-endpoint FastAPI service
that validates an uploaded image and relays it, with a fixed prompt, to an
external inference capability.

Modelling conventions:
* Bytes are `List Nat`; an uploaded file is a byte buffer plus a read
  cursor (`FileStream`), mirroring Python file-object semantics:
  `read()` returns everything from the cursor to the end and leaves the
  cursor at the end; `seek(0)` resets it.
* The external image-decoding capability (PIL's `Image.open`, which on a
  seekable file first seeks to position 0 and then reads, raising if the
  bytes do not identify as an image — FastAPI's `UploadFile.file` is a
  seekable `SpooledTemporaryFile`, so the decoder examines the full
  backing bytes) is a parameter `decode : List Nat → Except String Unit`.
  `pilDecode` is a concrete instance recognising JPEG/PNG signatures.
* The external inference capability (`genai` model call) is a parameter
  `genCall : List Part → Except String String` taking the combined request
  (the literal list `[prompt, image_data[0]]` the code builds).  The
  embedding of `get_gemini_response` also returns the trace of requests
  sent, so that "exactly one call, no retry" is provable.
* Python exceptions are `Except PyError`; `HTTPException(status, detail)`
  is `PyError.http ⟨status, detail⟩`, any other exception `PyError.other`.
-/

namespace ImageApp

/-- A Python file object: backing bytes plus the read cursor. -/
structure FileStream where
  bytes : List Nat
  pos : Nat
deriving Repr, DecidableEq

/-- `f.read()` with no argument: returns the bytes from the cursor to the
end and leaves the cursor at the end. -/
def FileStream.read (f : FileStream) : List Nat × FileStream :=
  (f.bytes.drop f.pos, { bytes := f.bytes, pos := f.bytes.length })

/-- `f.seek(0)`: reset the read cursor to the beginning. -/
def FileStream.seekStart (f : FileStream) : FileStream :=
  { bytes := f.bytes, pos := 0 }

/-- FastAPI `UploadFile`: the underlying file object and the declared
content type of the multipart part. -/
structure UploadFile where
  file : FileStream
  content_type : String
deriving Repr, DecidableEq

/-- The payload of a FastAPI `HTTPException`. -/
structure HTTPExceptionData where
  status_code : Nat
  detail : String
deriving Repr, DecidableEq

/-- A raised Python exception: either an `HTTPException` or any other
exception (carrying its `str(e)` message). -/
inductive PyError where
  | http (e : HTTPExceptionData)
  | other (msg : String)
deriving Repr, DecidableEq

/-- One element of the `image_data` list built by `input_image_setup`:
`{"mime_type": ..., "data": ...}`. -/
structure ImagePart where
  mime_type : String
  data : List Nat
deriving Repr, DecidableEq

/-- One part of the combined request handed to the external model:
the code passes the list `[prompt, image_data[0]]`. -/
inductive Part where
  | promptPart (text : String)
  | imagePart (img : ImagePart)
deriving Repr, DecidableEq

/-- Is this request part the textual prompt part? -/
def Part.isTextPart : Part → Bool
  | .promptPart _ => true
  | .imagePart _ => false

/-- Is this request part an image part? -/
def Part.isImgPart : Part → Bool
  | .promptPart _ => false
  | .imagePart _ => true

/-- The external image-decoding capability: given the bytes it can read,
either identify/decode an image or fail with a message. -/
abbrev Decoder := List Nat → Except String Unit

/-- The external inference capability: given the combined request parts,
either return the response text or fail with a message. -/
abbrev GeminiCall := List Part → Except String String

/-- JPEG signature bytes FF D8 FF. -/
def jpegMagic : List Nat := [255, 216, 255]

/-- PNG signature bytes 89 50 4E 47 0D 0A 1A 0A. -/
def pngMagic : List Nat := [137, 80, 78, 71, 13, 10, 26, 10]

/-- A concrete PIL-like decoder: identifies the stream as an image iff it
starts with a JPEG or PNG signature, otherwise raises with PIL's
`cannot identify image file` message.  In particular, like PIL, it fails
on an empty stream: no raster format has an empty signature. -/
def pilDecode : Decoder := fun bs =>
  if jpegMagic.isPrefixOf bs || pngMagic.isPrefixOf bs then
    .ok ()
  else
    .error "cannot identify image file"

/-- A decoder that accepts any stream; used to instantiate theorems whose
hypotheses require the decode call in the code to succeed. -/
def acceptAll : Decoder := fun _ => .ok ()

/-- The fixed process-wide prompt constant `input_prompt`
(src/image-app.py lines 16-52), transcribed byte for byte. -/
def input_prompt : String :=
  "\nYou are an expert nutritionist. Analyze the food items visible in the image and calculate their total calories. \nRespond with a JSON-like database format that includes the following fields:\n\n- id: Unique identifier for the item.\n- item_name: The name of the food item.\n- quantity: The number of each item visible in the image.\n- calories: The calorie count for the given quantity of the item.\n\nExample response format:\n\x7b\n    \"status\": \"success\",\n    \"data\": [\n        \x7b\n            \"id\": 1,\n            \"name\": \"apple\",\n            \"color\": \"green\",\n            \"weight\": 150,\n            \"delicious\": true\n        \x7d,\n        \x7b\n            \"id\": 2,\n            \"name\": \"banana\",\n            \"color\": \"yellow\",\n            \"weight\": 116,\n            \"delicious\": true\n        \x7d,\n        \x7b\n            \"id\": 3,\n            \"name\": \"strawberry\",\n            \"color\": \"red\",\n            \"weight\": 12,\n            \"delicious\": true\n        \x7d\n    ]\n\x7d\n"

/-- `input_image_setup` (src/image-app.py lines 65-84).  It calls
`uploaded_file.file.read()` (returning the bytes from the cursor onward,
`bytes_data`), then hands the file object to `Image.open`, which seeks the
seekable stream back to 0 and so decodes the full backing bytes; on
success it calls `seek(0)` and returns
`[{"mime_type": content_type, "data": bytes_data}]` together with the
file in its final state.  Any failure is wrapped as
`HTTPException(400, "Invalid image file: " + str(e))`. -/
def input_image_setup (decode : Decoder) (uploaded_file : UploadFile) :
    Except PyError (List ImagePart × UploadFile) :=
  match decode uploaded_file.file.bytes with
  | .ok _ =>
      .ok ([{ mime_type := uploaded_file.content_type,
              data := uploaded_file.file.read.1 }],
           { file := uploaded_file.file.read.2.seekStart,
             content_type := uploaded_file.content_type })
  | .error e =>
      .error (.http { status_code := 400, detail := "Invalid image file: " ++ e })

/-- `get_gemini_response` (src/image-app.py lines 54-63).  Builds the
combined request `[prompt, image_data[0]]`, makes a single call to the
external capability, and returns its text unchanged; any failure inside
the `try` (including the `IndexError` from `image_data[0]` on an empty
list) is wrapped as `HTTPException(500, "Error communicating with Gemini
API: " + str(e))`.  The second component of the result is the trace of
combined requests actually sent to the external capability. -/
def get_gemini_response (genCall : GeminiCall) (prompt : String)
    (image_data : List ImagePart) :
    Except PyError String × List (List Part) :=
  match image_data with
  | [] =>
      (.error (.http { status_code := 500,
                       detail := "Error communicating with Gemini API: list index out of range" }),
       [])
  | img :: _ =>
      match genCall [Part.promptPart prompt, Part.imagePart img] with
      | .ok t => (.ok t, [[Part.promptPart prompt, Part.imagePart img]])
      | .error e =>
          (.error (.http { status_code := 500,
                           detail := "Error communicating with Gemini API: " ++ e }),
           [[Part.promptPart prompt, Part.imagePart img]])

/-- The content-type allow-list checked by `count_fruits`
(src/image-app.py line 112). -/
def allowedTypes : List String := ["image/jpeg", "image/png", "image/jpg"]

/-- The JSON success envelope `{"success": True, "data": response}`. -/
structure SuccessBody where
  success : Bool
  data : String
deriving Repr, DecidableEq

/-- The body of the `try` block in `count_fruits`
(src/image-app.py lines 115-123): validation, then inference, then the
success envelope. -/
def count_fruits_body (decode : Decoder) (genCall : GeminiCall)
    (file : UploadFile) : Except PyError SuccessBody :=
  match input_image_setup decode file with
  | .error e => .error e
  | .ok (image_data, _) =>
      match (get_gemini_response genCall input_prompt image_data).1 with
      | .error e => .error e
      | .ok response => .ok { success := true, data := response }

/-- The `except` clauses of `count_fruits` (src/image-app.py lines
124-127): an `HTTPException` is re-raised unchanged; any other exception
becomes `HTTPException(500, "Unexpected error: " + str(e))`. -/
def count_fruits_catch (r : Except PyError SuccessBody) :
    Except HTTPExceptionData SuccessBody :=
  match r with
  | .ok b => .ok b
  | .error (.http e) => .error e
  | .error (.other m) =>
      .error { status_code := 500, detail := "Unexpected error: " ++ m }

/-- The `count_fruits` handler (src/image-app.py lines 107-127): the
content-type gate runs before the `try` block; the outcome is either the
success body (HTTP 200) or a raised `HTTPException`. -/
def count_fruits (decode : Decoder) (genCall : GeminiCall)
    (file : UploadFile) : Except HTTPExceptionData SuccessBody :=
  if allowedTypes.contains file.content_type then
    count_fruits_catch (count_fruits_body decode genCall file)
  else
    .error { status_code := 400,
             detail := "Unsupported file type. Please upload a JPEG or PNG image." }

/-- `true` iff `pat` occurs as a contiguous substring of `s`
(on the underlying character lists). -/
def listContainsSub (s pat : List Char) : Bool :=
  match s with
  | [] => pat.isEmpty
  | _ :: t => pat.isPrefixOf s || listContainsSub t pat

/-- `true` iff `pat` occurs as a contiguous substring of `s`. -/
def containsSub (s pat : String) : Bool :=
  listContainsSub s.data pat.data

/-- Bytes that begin with the JPEG signature, hence a valid image for the
PIL-like decoder (FF D8 FF E0, APP0 length, "JFIF"). -/
def validJpegBytes : List Nat := [255, 216, 255, 224, 0, 16, 74, 70, 73, 70]

/-- An uploaded valid JPEG: fresh stream at position 0, declared type
`image/jpeg`. -/
def jpegUpload : UploadFile :=
  { file := { bytes := validJpegBytes, pos := 0 }, content_type := "image/jpeg" }

/-- An uploaded valid PNG: fresh stream at position 0, declared type
`image/png`. -/
def pngUpload : UploadFile :=
  { file := { bytes := pngMagic, pos := 0 }, content_type := "image/png" }

/-- Helper: what a successful `input_image_setup` returns — the singleton
image part carrying the declared content type and the bytes read, and the
file with its cursor reset. -/
theorem input_image_setup_ok (decode : Decoder) (u : UploadFile)
    (parts : List ImagePart) (u' : UploadFile)
    (h : input_image_setup decode u = .ok (parts, u')) :
    parts = [{ mime_type := u.content_type, data := u.file.read.1 }] ∧
    u' = { file := u.file.read.2.seekStart, content_type := u.content_type } := by
  unfold input_image_setup at h
  split at h
  · simp only [Except.ok.injEq, Prod.mk.injEq] at h
    exact ⟨h.1.symm, h.2.symm⟩
  · exact Except.noConfusion h

/-- Helper: whatever the external call returns, `get_gemini_response` on a
non-empty `image_data` sends exactly one combined request, namely
`[prompt, image_data[0]]`. -/
theorem gemini_trace_cons (genCall : GeminiCall) (p : String)
    (img : ImagePart) (rest : List ImagePart) :
    (get_gemini_response genCall p (img :: rest)).2 =
      [[Part.promptPart p, Part.imagePart img]] := by
  cases hg : genCall [Part.promptPart p, Part.imagePart img] <;>
    simp [get_gemini_response, hg]

/-- Helper: when the decoder accepts the backing bytes,
`input_image_setup` succeeds with the singleton image part (declared
content type, bytes read from the cursor) and the cursor-reset file. -/
theorem input_image_setup_decode_ok (decode : Decoder) (u : UploadFile)
    (hdec : decode u.file.bytes = .ok ()) :
    input_image_setup decode u =
      .ok ([{ mime_type := u.content_type, data := u.file.read.1 }],
           { file := u.file.read.2.seekStart, content_type := u.content_type }) := by
  unfold input_image_setup
  rw [hdec]

/-- Helper: when the external call on the combined request succeeds with
`t`, `get_gemini_response` returns `t` and a trace of that one request. -/
theorem get_gemini_response_ok (genCall : GeminiCall) (p t : String)
    (img : ImagePart) (rest : List ImagePart)
    (h : genCall [Part.promptPart p, Part.imagePart img] = .ok t) :
    get_gemini_response genCall p (img :: rest) =
      (.ok t, [[Part.promptPart p, Part.imagePart img]]) := by
  simp [get_gemini_response, h]

/-- Helper: the `try` body of the handler succeeds with the success
envelope when decoding and the external call both succeed. -/
theorem count_fruits_body_ok (decode : Decoder) (genCall : GeminiCall)
    (u : UploadFile) (t : String)
    (hdec : decode u.file.bytes = .ok ())
    (hcall : genCall [Part.promptPart input_prompt,
        Part.imagePart { mime_type := u.content_type, data := u.file.read.1 }] = .ok t) :
    count_fruits_body decode genCall u = .ok { success := true, data := t } := by
  unfold count_fruits_body
  rw [input_image_setup_decode_ok decode u hdec]
  simp [get_gemini_response_ok genCall input_prompt t _ [] hcall]

/-- C1: for every upload whose backing bytes are a valid image for the
decoder (e.g. a valid JPEG or PNG) and whose stream is fresh (cursor at
0, as FastAPI hands it over), `input_image_setup` succeeds and the
packaged image part carries the declared content type and exactly the
original uploaded bytes, byte for byte. -/
theorem valid_image_roundtrips_bytes (decode : Decoder) (u : UploadFile)
    (hpos : u.file.pos = 0) (hdec : decode u.file.bytes = .ok ()) :
    input_image_setup decode u =
      .ok ([{ mime_type := u.content_type, data := u.file.bytes }],
           { file := { bytes := u.file.bytes, pos := 0 },
             content_type := u.content_type }) := by
  rw [input_image_setup_decode_ok decode u hdec]
  simp [FileStream.read, FileStream.seekStart, hpos]

/-- Witness for C1: a valid JPEG upload passes validation and its bytes
round-trip unchanged. -/
theorem valid_image_roundtrips_bytes_witness :
    jpegUpload.file.pos = 0 ∧
    pilDecode jpegUpload.file.bytes = .ok () ∧
    input_image_setup pilDecode jpegUpload =
      .ok ([{ mime_type := "image/jpeg", data := validJpegBytes }],
           { file := { bytes := validJpegBytes, pos := 0 },
             content_type := "image/jpeg" }) :=
  ⟨rfl, rfl, valid_image_roundtrips_bytes pilDecode jpegUpload rfl rfl⟩

/-- C2: a declared content type outside the allow-list is rejected with the
400 `Unsupported file type` error before anything else runs: the result is
this fixed error for every decoder and every external capability, so
neither decode validation nor inference is consulted. -/
theorem disallowed_content_type_rejected_400 (decode : Decoder)
    (genCall : GeminiCall) (file : UploadFile)
    (h : allowedTypes.contains file.content_type = false) :
    count_fruits decode genCall file =
      .error { status_code := 400,
               detail := "Unsupported file type. Please upload a JPEG or PNG image." } := by
  unfold count_fruits
  rw [h]
  rfl

/-- Witness for C2 at content type `text/plain`. -/
theorem disallowed_content_type_rejected_400_witness :
    allowedTypes.contains "text/plain" = false ∧
    count_fruits pilDecode (fun _ => Except.ok "ok")
        { file := { bytes := [1, 2, 3], pos := 0 }, content_type := "text/plain" } =
      .error { status_code := 400,
               detail := "Unsupported file type. Please upload a JPEG or PNG image." } :=
  ⟨rfl, disallowed_content_type_rejected_400 pilDecode (fun _ => Except.ok "ok")
    { file := { bytes := [1, 2, 3], pos := 0 }, content_type := "text/plain" } rfl⟩

/-- C3: whenever the decode call made by `input_image_setup` fails with
message `e`, validation fails with the 400 `HTTPException` whose detail is
`"Invalid image file: " ++ e`, which `count_fruits` re-raises as a 400
response. -/
theorem decode_failure_yields_400_with_message (decode : Decoder)
    (u : UploadFile) (e : String)
    (h : decode u.file.bytes = .error e) :
    input_image_setup decode u =
      .error (.http { status_code := 400, detail := "Invalid image file: " ++ e }) ∧
    (allowedTypes.contains u.content_type = true →
      count_fruits decode (fun _ => Except.ok "ok") u =
        .error { status_code := 400, detail := "Invalid image file: " ++ e }) := by
  have hsetup : input_image_setup decode u =
      .error (.http { status_code := 400, detail := "Invalid image file: " ++ e }) := by
    unfold input_image_setup
    rw [h]
  refine ⟨hsetup, fun hct => ?_⟩
  unfold count_fruits
  rw [hct]
  simp only [if_true]
  unfold count_fruits_body
  rw [hsetup]
  rfl

/-- Witness for C3: random bytes (no image signature) are handed to the
decoder, which fails; the service responds 400 with the wrapped message. -/
theorem decode_failure_yields_400_with_message_witness :
    pilDecode (UploadFile.mk { bytes := [1, 2, 3], pos := 0 } "image/png").file.bytes =
      .error "cannot identify image file" ∧
    (input_image_setup pilDecode { file := { bytes := [1, 2, 3], pos := 0 }, content_type := "image/png" } =
      .error (.http { status_code := 400,
                      detail := "Invalid image file: cannot identify image file" }) ∧
    (allowedTypes.contains ("image/png" : String) = true →
      count_fruits pilDecode (fun _ => Except.ok "ok")
          { file := { bytes := [1, 2, 3], pos := 0 }, content_type := "image/png" } =
        .error { status_code := 400,
                 detail := "Invalid image file: cannot identify image file" })) :=
  ⟨rfl, decode_failure_yields_400_with_message pilDecode
    { file := { bytes := [1, 2, 3], pos := 0 }, content_type := "image/png" }
    "cannot identify image file" rfl⟩

/-- C4: if the single combined call to the external capability fails with
message `e`, `get_gemini_response` fails with the 500 `HTTPException`
whose detail wraps `e`, and the trace shows exactly one outbound request
(no retry), carrying the image part unchanged. -/
theorem inference_failure_yields_500_with_message (genCall : GeminiCall)
    (prompt : String) (img : ImagePart) (rest : List ImagePart) (e : String)
    (h : genCall [Part.promptPart prompt, Part.imagePart img] = .error e) :
    get_gemini_response genCall prompt (img :: rest) =
      (.error (.http { status_code := 500,
                       detail := "Error communicating with Gemini API: " ++ e }),
       [[Part.promptPart prompt, Part.imagePart img]]) := by
  simp [get_gemini_response, h]

/-- Witness for C4: an always-failing external capability. -/
theorem inference_failure_yields_500_with_message_witness :
    (fun _ => Except.error "network unreachable" : GeminiCall)
        [Part.promptPart "p", Part.imagePart { mime_type := "image/png", data := [1] }] =
      .error "network unreachable" ∧
    get_gemini_response (fun _ => Except.error "network unreachable") "p"
        [{ mime_type := "image/png", data := [1] }] =
      (.error (.http { status_code := 500,
                       detail := "Error communicating with Gemini API: network unreachable" }),
       [[Part.promptPart "p", Part.imagePart { mime_type := "image/png", data := [1] }]]) :=
  ⟨rfl, inference_failure_yields_500_with_message
    (fun _ => Except.error "network unreachable") "p"
    { mime_type := "image/png", data := [1] } [] "network unreachable" rfl⟩

/-- C5: for every request with an allow-listed content type, an image the
decoder accepts, and an external call that succeeds with text `t`, the
handler responds with exactly the success envelope
`{"success": true, "data": t}` (HTTP 200), `t` passed through
unmodified. -/
theorem success_envelope_passes_text_through (decode : Decoder)
    (genCall : GeminiCall) (u : UploadFile) (t : String)
    (hct : allowedTypes.contains u.content_type = true)
    (hdec : decode u.file.bytes = .ok ())
    (hcall : genCall [Part.promptPart input_prompt,
        Part.imagePart { mime_type := u.content_type, data := u.file.read.1 }] = .ok t) :
    count_fruits decode genCall u = .ok { success := true, data := t } := by
  unfold count_fruits
  rw [hct]
  simp only [if_true]
  rw [count_fruits_body_ok decode genCall u t hdec hcall]
  rfl

/-- Witness for C5: valid JPEG, allow-listed type, succeeding external
capability — the response is the 200 success envelope with the
provider's text. -/
theorem success_envelope_passes_text_through_witness :
    allowedTypes.contains jpegUpload.content_type = true ∧
    pilDecode jpegUpload.file.bytes = .ok () ∧
    count_fruits pilDecode (fun _ => Except.ok "The image shows 2 apples.") jpegUpload =
      .ok { success := true, data := "The image shows 2 apples." } :=
  ⟨rfl, rfl, success_envelope_passes_text_through pilDecode
    (fun _ => Except.ok "The image shows 2 apples.") jpegUpload
    "The image shows 2 apples." rfl rfl rfl⟩

/-- C6: whenever validation succeeds, the produced image part's
`mime_type` is exactly the client's declared content type — nothing is
re-derived from the bytes. -/
theorem successful_validation_keeps_declared_mime (decode : Decoder)
    (u : UploadFile) (parts : List ImagePart) (u' : UploadFile)
    (h : input_image_setup decode u = .ok (parts, u')) :
    parts.map ImagePart.mime_type = [u.content_type] := by
  obtain ⟨hp, _⟩ := input_image_setup_ok decode u parts u' h
  subst hp
  rfl

/-- Witness for C6: a decoder that accepts the (consumed) stream lets
validation succeed; the packaged mime type is the declared `image/png`. -/
theorem successful_validation_keeps_declared_mime_witness :
    List.map ImagePart.mime_type
      [{ mime_type := "image/png", data := pngMagic }] = ["image/png"] :=
  successful_validation_keeps_declared_mime acceptAll pngUpload _ _ rfl

/-- C7: whenever validation succeeds, the returned file's cursor is reset
to the beginning and nothing else changed: the backing bytes and the
declared content type are untouched. -/
theorem successful_validation_resets_cursor_only (decode : Decoder)
    (u : UploadFile) (parts : List ImagePart) (u' : UploadFile)
    (h : input_image_setup decode u = .ok (parts, u')) :
    u'.file.pos = 0 ∧ u'.file.bytes = u.file.bytes ∧
    u'.content_type = u.content_type := by
  obtain ⟨_, hu⟩ := input_image_setup_ok decode u parts u' h
  subst hu
  exact ⟨rfl, rfl, rfl⟩

/-- Witness for C7 on a PNG upload with an accepting decoder. -/
theorem successful_validation_resets_cursor_only_witness :
    ({ file := { bytes := pngMagic, pos := 0 }, content_type := "image/png" } : UploadFile).file.pos = 0 ∧
    ({ file := { bytes := pngMagic, pos := 0 }, content_type := "image/png" } : UploadFile).file.bytes = pngUpload.file.bytes ∧
    ({ file := { bytes := pngMagic, pos := 0 }, content_type := "image/png" } : UploadFile).content_type = pngUpload.content_type :=
  successful_validation_resets_cursor_only acceptAll pngUpload _ _ rfl

/-- C8: for every invocation of the inference operation on the
`image_data` produced by validation, exactly one combined request is sent
to the external capability, and it consists of exactly one prompt part
and exactly one image part. -/
theorem single_combined_request_one_prompt_one_image (decode : Decoder)
    (genCall : GeminiCall) (u : UploadFile)
    (image_data : List ImagePart) (u' : UploadFile)
    (h : input_image_setup decode u = .ok (image_data, u')) :
    image_data = [{ mime_type := u.content_type, data := u.file.read.1 }] ∧
    (get_gemini_response genCall input_prompt image_data).2 =
      [[Part.promptPart input_prompt,
        Part.imagePart { mime_type := u.content_type, data := u.file.read.1 }]] ∧
    List.countP Part.isTextPart
      [Part.promptPart input_prompt,
       Part.imagePart { mime_type := u.content_type, data := u.file.read.1 }] = 1 ∧
    List.countP Part.isImgPart
      [Part.promptPart input_prompt,
       Part.imagePart { mime_type := u.content_type, data := u.file.read.1 }] = 1 := by
  obtain ⟨hp, _⟩ := input_image_setup_ok decode u image_data u' h
  subst hp
  exact ⟨rfl, gemini_trace_cons genCall input_prompt _ [], rfl, rfl⟩

/-- Witness for C8 on a PNG upload with an accepting decoder and a
succeeding external capability. -/
theorem single_combined_request_one_prompt_one_image_witness :
    ([{ mime_type := "image/png", data := pngMagic }] : List ImagePart) =
      [{ mime_type := "image/png", data := pngMagic }] ∧
    (get_gemini_response (fun _ => Except.ok "3 bananas") input_prompt
        [{ mime_type := "image/png", data := pngMagic }]).2 =
      [[Part.promptPart input_prompt,
        Part.imagePart { mime_type := "image/png", data := pngMagic }]] ∧
    List.countP Part.isTextPart
      [Part.promptPart input_prompt,
       Part.imagePart { mime_type := "image/png", data := pngMagic }] = 1 ∧
    List.countP Part.isImgPart
      [Part.promptPart input_prompt,
       Part.imagePart { mime_type := "image/png", data := pngMagic }] = 1 :=
  single_combined_request_one_prompt_one_image acceptAll
    (fun _ => Except.ok "3 bananas") pngUpload _ _ rfl

set_option maxRecDepth 20000

/-- C9: the one `input_prompt` string both describes the output fields
`id`/`item_name`/`quantity`/`calories` and embeds a worked example using
the different fields `name`/`color`/`weight`/`delicious`; the described
fields `item_name`/`quantity`/`calories` never occur as keys in the
example. -/
theorem prompt_schema_and_example_disagree :
    containsSub input_prompt "- id: " = true ∧
    containsSub input_prompt "- item_name: " = true ∧
    containsSub input_prompt "- quantity: " = true ∧
    containsSub input_prompt "- calories: " = true ∧
    containsSub input_prompt "\"id\": " = true ∧
    containsSub input_prompt "\"name\": " = true ∧
    containsSub input_prompt "\"color\": " = true ∧
    containsSub input_prompt "\"weight\": " = true ∧
    containsSub input_prompt "\"delicious\": " = true ∧
    containsSub input_prompt "\"item_name\"" = false ∧
    containsSub input_prompt "\"quantity\"" = false ∧
    containsSub input_prompt "\"calories\"" = false :=
  ⟨rfl, rfl, rfl, rfl, rfl, rfl, rfl, rfl, rfl, rfl, rfl, rfl⟩

/-- C10: the handler's `except` clauses re-raise an `HTTPException`
unchanged (status code and detail preserved — so a client-input 400 is
never escalated to 500), and only a non-HTTP exception becomes the
catch-all 500 `Unexpected error`. -/
theorem http_exceptions_reraised_unchanged (e : HTTPExceptionData) (m : String) :
    count_fruits_catch (.error (.http e)) = .error e ∧
    count_fruits_catch (.error (.other m)) =
      .error { status_code := 500, detail := "Unexpected error: " ++ m } :=
  ⟨rfl, rfl⟩

end ImageApp
